import Mathlib

/-!
Verification of `src/risk_analysis.py`, a keyword-based risk scorer for
chat transcripts.  The script extracts the user-authored lines of a
conversation, scores the resulting text against two weighted pattern
catalogs (HIV acquisition risk and mental-health risk), classifies each
score into a level (low / moderate / high) and attaches a fixed
recommendation message per level.

The embedding below models Python strings as `List Char`, Python floats
as rationals (every weight and threshold in the source is an exact
decimal, and every reachable score is a multiple of 1/20, so rational
arithmetic agrees with the source's float arithmetic at every comparison
the program performs), and the `re.search` calls with an executable
regular-expression matcher covering exactly the constructs the catalog
patterns use: literals, the `.` wildcard (any character except newline),
alternation `(a|b)`, option `?` and star `*`.
-/

namespace RiskAnalysis

/-- Abstract syntax of the regular-expression fragment used by the
pattern catalogs in `risk_analysis.py`: the empty language, the empty
word, character literals, the Python `.` wildcard (any character except
a newline, since `re.DOTALL` is not used), alternation, concatenation
and Kleene star.  `x?` is encoded as `alt x eps`. -/
inductive Regex where
  | emp : Regex
  | eps : Regex
  | chr : Char → Regex
  | dot : Regex
  | alt : Regex → Regex → Regex
  | cat : Regex → Regex → Regex
  | star : Regex → Regex
deriving DecidableEq

/-- Alternation, simplifying the empty language away (keeps derivatives
small; the language is unchanged). -/
def mkAlt : Regex → Regex → Regex
  | .emp, s => s
  | r, .emp => r
  | r, s => .alt r s

/-- Concatenation, simplifying the empty language and the empty word
away (keeps derivatives small; the language is unchanged). -/
def mkCat : Regex → Regex → Regex
  | .emp, _ => .emp
  | _, .emp => .emp
  | .eps, s => s
  | r, .eps => r
  | r, s => .cat r s

/-- Does the regex accept the empty word? -/
def nullable : Regex → Bool
  | .emp => false
  | .eps => true
  | .chr _ => false
  | .dot => false
  | .alt r s => nullable r || nullable s
  | .cat r s => nullable r && nullable s
  | .star _ => true

/-- Brzozowski derivative of a regex with respect to one character. -/
def deriv : Regex → Char → Regex
  | .emp, _ => .emp
  | .eps, _ => .emp
  | .chr d, c => if d = c then .eps else .emp
  | .dot, c => if c = '\n' then .emp else .eps
  | .alt r s, c => mkAlt (deriv r c) (deriv s c)
  | .cat r s, c =>
      if nullable r then mkAlt (mkCat (deriv r c) s) (deriv s c)
      else mkCat (deriv r c) s
  | .star r, c => mkCat (deriv r c) (.star r)

/-- Does some prefix of the character list match the regex? -/
def matchesPref : Regex → List Char → Bool
  | r, [] => nullable r
  | r, c :: cs => nullable r || matchesPref (deriv r c) cs

/-- Python `re.search(pat, s)`: does the regex match starting at some
position of `s`? -/
def reSearch : Regex → List Char → Bool
  | r, [] => nullable r
  | r, c :: cs => matchesPref r (c :: cs) || reSearch r cs

/-- A literal string as a regex (concatenation of its characters). -/
def lit (s : String) : Regex := s.data.foldr (fun c r => .cat (.chr c) r) .eps

/-- `x?` in the source patterns: zero or one occurrence. -/
def opt (r : Regex) : Regex := .alt r .eps

/-- Concatenation of a list of regexes, in order. -/
def rcat (rs : List Regex) : Regex := rs.foldr .cat .eps

/-- `(a|b|...)` in the source patterns: alternation over a list. -/
def alts : List Regex → Regex
  | [] => .emp
  | [r] => r
  | r :: rs => .alt r (alts rs)

/-- One risk category of a domain catalog: its name, its weight and its
pattern list, mirroring one entry of `HIV_KEYWORDS` / `MH_KEYWORDS`. -/
structure Category where
  name : String
  weight : ℚ
  patterns : List Regex
deriving DecidableEq

/-- `HIV_KEYWORDS["unprotected_sex"]` (weight 0.45). -/
def hivUnprotectedSex : Category :=
  ⟨"unprotected_sex", 45/100,
    [lit "without a condom",
     lit "no condom",
     rcat [lit "didn", opt .dot, lit "t use ", opt (lit "a "), lit "condom"],
     lit "condom broke",
     lit "condom slipped"]⟩

/-- `HIV_KEYWORDS["sti_symptoms"]` (weight 0.25). -/
def hivStiSymptoms : Category :=
  ⟨"sti_symptoms", 25/100,
    [rcat [lit "genital ",
           alts [lit "sore", lit "sores", lit "ulcer", lit "ulcers",
                 lit "blister", lit "blisters"]],
     rcat [lit "burn", opt (alts [lit "s", lit "ing"]), lit " when ",
           opt (lit "i "), lit "pee"],
     lit "penile discharge",
     lit "vaginal discharge",
     lit "smelly discharge"]⟩

/-- `HIV_KEYWORDS["multiple_partners"]` (weight 0.15). -/
def hivMultiplePartners : Category :=
  ⟨"multiple_partners", 15/100,
    [rcat [lit "multiple partner", opt (.chr 's')],
     rcat [lit "more than one ", alts [lit "guy", lit "girl", lit "partner"]],
     rcat [lit "one", opt .dot, lit "night stand"],
     rcat [lit "hook", opt .dot, lit "up"],
     lit "cheated",
     lit "affair",
     lit "sex worker"]⟩

/-- `HIV_KEYWORDS["partner_hiv_positive_or_unknown"]` (weight 0.25). -/
def hivPartnerStatus : Category :=
  ⟨"partner_hiv_positive_or_unknown", 25/100,
    [rcat [lit "partner", .star .dot, alts [lit "hiv+", lit "hiv positive"]],
     rcat [lit "on ", alts [lit "arvs", lit "art"]],
     rcat [lit "don", opt .dot, lit "t know", .star .dot, lit "partner",
           opt .dot, opt (.chr 's'), lit " status"]]⟩

/-- The HIV domain catalog, in source (insertion) order. -/
def HIV_KEYWORDS : List Category :=
  [hivUnprotectedSex, hivStiSymptoms, hivMultiplePartners, hivPartnerStatus]

/-- `MH_KEYWORDS["depression"]` (weight 0.25). -/
def mhDepression : Category :=
  ⟨"depression", 25/100,
    [rcat [alts [lit "i feel", lit "feeling"], lit " ",
           alts [lit "sad", lit "down", lit "empty", lit "numb"]],
     lit "lost interest",
     lit "no energy",
     lit "tired of life",
     lit "worthless"]⟩

/-- `MH_KEYWORDS["anxiety"]` (weight 0.2). -/
def mhAnxiety : Category :=
  ⟨"anxiety", 2/10,
    [lit "anxious",
     lit "anxiety",
     lit "panic attack",
     rcat [lit "heart", .star .dot, lit "racing"]]⟩

/-- `MH_KEYWORDS["suicidality_or_self_harm"]` (weight 0.6). -/
def mhSuicidality : Category :=
  ⟨"suicidality_or_self_harm", 6/10,
    [lit "kill myself",
     lit "end it all",
     rcat [lit "don", opt .dot, lit "t want to live"],
     lit "rather be dead",
     lit "suicide"]⟩

/-- `MH_KEYWORDS["substance_use"]` (weight 0.15). -/
def mhSubstanceUse : Category :=
  ⟨"substance_use", 15/100,
    [lit "drinking a lot",
     rcat [lit "using ", alts [lit "weed", lit "dagga", lit "marijuana", lit "drugs"]]]⟩

/-- The mental-health domain catalog, in source (insertion) order. -/
def MH_KEYWORDS : List Category :=
  [mhDepression, mhAnxiety, mhSuicidality, mhSubstanceUse]

/-- `text.lower()` on the ASCII texts and patterns of the source. -/
def lower (s : List Char) : List Char := s.map Char.toLower

/-- `any(re.search(pat, text) for pat in cfg["patterns"])`: a category
is triggered on a (already lowercased) text iff some of its patterns
matches somewhere in it. -/
def categoryTriggers (text : List Char) (cfg : Category) : Bool :=
  cfg.patterns.any (fun pat => reSearch pat text)

/-- `_keyword_score`: lowercase the text, add each triggered category's
weight once to a running total (iterating the catalog in source order),
then clamp at 1.0. -/
def _keyword_score (text : List Char) (keyword_dict : List Category) : ℚ :=
  min (keyword_dict.foldl
        (fun score cfg =>
          if categoryTriggers (lower text) cfg then score + cfg.weight else score)
        0)
      1

/-- `compute_hiv_risk`. -/
def compute_hiv_risk (text : List Char) : ℚ := _keyword_score text HIV_KEYWORDS

/-- `compute_mental_health_risk`. -/
def compute_mental_health_risk (text : List Char) : ℚ := _keyword_score text MH_KEYWORDS

/-- `risk_level`: score < 0.3 → low, score < 0.6 → moderate, else high. -/
def risk_level (score : ℚ) : String :=
  if score < 3/10 then "low"
  else if score < 3/5 then "moderate"
  else "high"

/-- `generate_hiv_recommendation`. -/
def generate_hiv_recommendation (score : ℚ) : String :=
  let level := risk_level score
  if level = "low" then
    "HIV risk low. Recommend routine HIV testing, consistent condom use, and STI prevention."
  else if level = "moderate" then
    "Moderate HIV risk. Recommend prompt HIV testing, STI screening, and assessment for PEP if exposure was within 72 hours."
  else
    "High HIV risk. Immediate clinical assessment advised. Evaluate for PEP, STI screening, pregnancy screening if applicable, and urgent HIV testing."

/-- `generate_mental_health_recommendation`. -/
def generate_mental_health_recommendation (score : ℚ) : String :=
  let level := risk_level score
  if level = "low" then
    "Low mental health risk. Provide psychoeducation, stress management, and routine monitoring."
  else if level = "moderate" then
    "Moderate mental health risk. Recommend clinic-based mental health assessment and counselling support."
  else
    "High mental health risk. Urgent same-day mental health assessment advised, including screening for suicidality or self-harm."

/-- Python's whitespace set for `str.strip()` (ASCII part; every input
the claims touch is ASCII). -/
def isSpaceChar (c : Char) : Bool :=
  c = ' ' || c = '\t' || c = '\n' || c = '\r' || c = '\x0b' || c = '\x0c'

/-- `line.strip()`: drop leading and trailing whitespace. -/
def strip (s : List Char) : List Char :=
  ((s.dropWhile isSpaceChar).reverse.dropWhile isSpaceChar).reverse

/-- Prepend a character to the first line of a line list (helper for
`splitlines`). -/
def consHead (c : Char) : List (List Char) → List (List Char)
  | [] => [[c]]
  | l :: ls => (c :: l) :: ls

/-- Python `str.splitlines()` on the line endings that occur in the
data: splits at `\n`, `\r\n` and `\r`, producing no trailing empty line
for a trailing newline and `[]` for the empty string. -/
def splitlines : List Char → List (List Char)
  | [] => []
  | '\r' :: '\n' :: rest => [] :: splitlines rest
  | '\n' :: rest => [] :: splitlines rest
  | '\r' :: rest => [] :: splitlines rest
  | c :: rest => consHead c (splitlines rest)

/-- Python `needle in haystack`: substring containment. -/
def containsSub (needle : List Char) : List Char → Bool
  | [] => needle.isEmpty
  | c :: cs => needle.isPrefixOf (c :: cs) || containsSub needle cs

/-- `s.split(sep, 1)[1]` when `sep` occurs in `s`: everything after the
first occurrence of `sep` (and `[]` when `sep` does not occur). -/
def splitAfterFirst (sep : List Char) : List Char → List Char
  | [] => []
  | c :: cs =>
      if sep.isPrefixOf (c :: cs) then (c :: cs).drop sep.length
      else splitAfterFirst sep cs

/-- `" ".join(parts)`. -/
def joinSpace : List (List Char) → List Char
  | [] => []
  | [l] => l
  | l :: ls => l ++ ' ' :: joinSpace ls

/-- The loop body of `extract_user_text` for one raw line: strip it,
then if it contains `"] User:"` keep the stripped remainder after the
first `"] User:"`, else if it contains `"User:"` keep the stripped
remainder after the first `"User:"`, else drop the line. -/
def processLine (l : List Char) : Option (List Char) :=
  let line := strip l
  if containsSub "] User:".data line then
    some (strip (splitAfterFirst "] User:".data line))
  else if containsSub "User:".data line then
    some (strip (splitAfterFirst "User:".data line))
  else
    none

/-- `extract_user_text`: keep the user messages of each line, in line
order, and space-join them. -/
def extract_user_text (conversation : List Char) : List Char :=
  joinSpace ((splitlines conversation).filterMap processLine)

/-- Python `round(x, 2)` step 1: round a rational to the nearest
integer, ties to even (Python's rounding mode; no reachable score ever
hits a tie, see the value lemmas below). -/
def roundHalfEven (q : ℚ) : ℤ :=
  let f := Int.floor q
  let r := q - f
  if r < 1/2 then f
  else if 1/2 < r then f + 1
  else if f % 2 = 0 then f else f + 1

/-- Python `round(x, 2)`: round to 2 decimal places. -/
def round2 (q : ℚ) : ℚ := (roundHalfEven (100 * q) : ℚ) / 100

/-- The `ConversationRiskResult` dataclass. -/
structure ConversationRiskResult where
  conversation_id : ℤ
  hiv_risk_score : ℚ
  hiv_risk_level : String
  mental_health_risk_score : ℚ
  mental_health_risk_level : String
  hiv_recommendation : String
  mental_health_recommendation : String
deriving DecidableEq

/-- `analyse_conversation`: extract the user text once, score both
domains on it, and assemble the result record; the stored scores are
rounded to 2 decimals while levels and recommendations are computed
from the unrounded scores. -/
def analyse_conversation (conversation_id : ℤ) (conversation_text : List Char) :
    ConversationRiskResult :=
  let user_text := extract_user_text conversation_text
  let hiv_score := compute_hiv_risk user_text
  let mh_score := compute_mental_health_risk user_text
  { conversation_id := conversation_id
    hiv_risk_score := round2 hiv_score
    hiv_risk_level := risk_level hiv_score
    mental_health_risk_score := round2 mh_score
    mental_health_risk_level := risk_level mh_score
    hiv_recommendation := generate_hiv_recommendation hiv_score
    mental_health_recommendation := generate_mental_health_recommendation mh_score }

/-- The user text of the end-to-end example in the design notes. -/
def c4text : List Char := "we had sex without a condom and now I have a genital sore".data

/-- A conversation with no recognizable user line (only counterpart
turns). -/
def noUserConv : List Char := "[12:01] Nurse: hello\n[12:02] Nurse: are you there".data

/-- A sample conversation used to instantiate universally quantified
results. -/
def sampleConv : List Char := "[12:01] User: I feel sad".data

/-- The twelve score values the HIV scorer can reach: `min` of 1 and a
subset sum of the four HIV weights 0.45, 0.25, 0.15, 0.25. -/
def hivScoreValues : List ℚ :=
  [0, 3/20, 1/4, 2/5, 9/20, 1/2, 3/5, 13/20, 7/10, 17/20, 19/20, 1]

/-- The thirteen score values the mental-health scorer can reach:
`min` of 1 and a subset sum of the four weights 0.25, 0.2, 0.6, 0.15. -/
def mhScoreValues : List ℚ :=
  [0, 3/20, 1/5, 1/4, 7/20, 2/5, 9/20, 3/5, 3/4, 4/5, 17/20, 19/20, 1]

/-! ## Helper lemmas -/

/-- The scoring fold accumulates exactly the weights of the triggered
categories on top of its accumulator. -/
theorem foldl_score (p : Category → Bool) (l : List Category) (a : ℚ) :
    l.foldl (fun score cfg => if p cfg then score + cfg.weight else score) a
      = a + ((l.filter p).map Category.weight).sum := by
  induction l generalizing a with
  | nil => simp
  | cons c l ih =>
    by_cases h : p c
    · simp [List.filter_cons, h, ih]
      ring
    · simp [List.filter_cons, h, ih]

/-- `_keyword_score` is the clamped sum of the weights of the triggered
categories. -/
theorem keyword_score_eq (text : List Char) (dict : List Category) :
    _keyword_score text dict
      = min (((dict.filter (categoryTriggers (lower text))).map Category.weight).sum) 1 := by
  rw [_keyword_score, foldl_score]
  simp

/-- Weight sums are nonnegative when every weight is. -/
theorem weight_sum_nonneg (l : List Category) (h : ∀ c ∈ l, 0 ≤ c.weight) :
    0 ≤ (l.map Category.weight).sum := by
  refine List.sum_nonneg ?_
  intro x hx
  obtain ⟨c, hc, rfl⟩ := List.mem_map.1 hx
  exact h c hc

/-- Every HIV category weight is nonnegative. -/
theorem hiv_weights_nonneg : ∀ c ∈ HIV_KEYWORDS, 0 ≤ c.weight := by
  intro c hc
  fin_cases hc <;>
    norm_num [hivUnprotectedSex, hivStiSymptoms, hivMultiplePartners, hivPartnerStatus]

/-- Every mental-health category weight is nonnegative. -/
theorem mh_weights_nonneg : ∀ c ∈ MH_KEYWORDS, 0 ≤ c.weight := by
  intro c hc
  fin_cases hc <;>
    norm_num [mhDepression, mhAnxiety, mhSuicidality, mhSubstanceUse]

/-- Enlarging the set of triggered categories cannot decrease the sum
of triggered weights. -/
theorem filter_sum_mono (l : List Category) (p q : Category → Bool)
    (hw : ∀ c ∈ l, 0 ≤ c.weight) (h : ∀ c ∈ l, p c = true → q c = true) :
    ((l.filter p).map Category.weight).sum ≤ ((l.filter q).map Category.weight).sum := by
  induction l with
  | nil => simp
  | cons c l ih =>
    have hw' : ∀ x ∈ l, 0 ≤ x.weight := fun x hx => hw x (List.mem_cons_of_mem _ hx)
    have h' : ∀ x ∈ l, p x = true → q x = true := fun x hx => h x (List.mem_cons_of_mem _ hx)
    have ihl := ih hw' h'
    by_cases hp : p c
    · have hq := h c (List.mem_cons_self _ _) hp
      simp [List.filter_cons, hp, hq]
      linarith
    · by_cases hq : q c
      · simp [List.filter_cons, hp, hq]
        have := hw c (List.mem_cons_self _ _)
        linarith
      · simp [List.filter_cons, hp, hq]
        exact ihl

/-- A list that starts with `b` contains `b` as a substring. -/
theorem containsSub_of_isPrefixOf (b l : List Char) (h : b.isPrefixOf l = true) :
    containsSub b l = true := by
  cases l with
  | nil =>
    cases b with
    | nil => rfl
    | cons x xs => simp [List.isPrefixOf] at h
  | cons c cs => simp [containsSub, h]

/-- An occurrence of `a ++ b` as a prefix yields an occurrence of `b`
as a substring. -/
theorem containsSub_of_append_isPrefixOf (b : List Char) :
    ∀ (a l : List Char), (a ++ b).isPrefixOf l = true → containsSub b l = true := by
  intro a
  induction a with
  | nil =>
    intro l h
    exact containsSub_of_isPrefixOf b l (by simpa using h)
  | cons x xs ih =>
    intro l h
    cases l with
    | nil => simp [List.isPrefixOf] at h
    | cons c cs =>
      simp only [List.cons_append, List.isPrefixOf, Bool.and_eq_true, beq_iff_eq] at h
      simp only [containsSub, Bool.or_eq_true]
      exact Or.inr (ih cs h.2)

/-- A list containing `a ++ b` as a substring contains `b` as a
substring. -/
theorem containsSub_append_left (a b : List Char) :
    ∀ l : List Char, containsSub (a ++ b) l = true → containsSub b l = true := by
  intro l
  induction l with
  | nil =>
    intro h
    simp only [containsSub, List.isEmpty_eq_true, List.append_eq_nil] at h
    simp [containsSub, h.1, h.2]
  | cons c cs ih =>
    intro h
    rw [containsSub, Bool.or_eq_true] at h
    rcases h with h | h
    · exact containsSub_of_append_isPrefixOf b a _ h
    · rw [containsSub, Bool.or_eq_true]
      exact Or.inr (ih h)

/-- The example text triggers the unprotected-sex category (via the
pattern `without a condom`). -/
theorem c4_triggers_unprotected : categoryTriggers (lower c4text) hivUnprotectedSex = true := by
  decide

/-- The example text triggers the STI-symptoms category (via the
pattern `genital (sore|...)`). -/
theorem c4_triggers_sti : categoryTriggers (lower c4text) hivStiSymptoms = true := by
  decide

/-- The example text does not trigger the multiple-partners category. -/
theorem c4_not_multiple : categoryTriggers (lower c4text) hivMultiplePartners = false := by
  decide

/-- The example text does not trigger the partner-status category. -/
theorem c4_not_partner : categoryTriggers (lower c4text) hivPartnerStatus = false := by
  decide

/-- The example text scores 0.45 + 0.25 = 0.70 on the HIV catalog. -/
theorem hiv_score_c4 : compute_hiv_risk c4text = 7/10 := by
  rw [compute_hiv_risk, keyword_score_eq]
  simp only [HIV_KEYWORDS, List.filter_cons, c4_triggers_unprotected, c4_triggers_sti,
    c4_not_multiple, c4_not_partner, if_true, if_false, List.filter_nil]
  norm_num [hivUnprotectedSex, hivStiSymptoms]

/-- The text `suicide` triggers exactly the suicidality category of the
mental-health catalog, and no other. -/
theorem suicide_only_suicidality :
    ∀ c ∈ MH_KEYWORDS,
      (categoryTriggers (lower "suicide".data) c = true
        ↔ c.name = "suicidality_or_self_harm") := by
  decide

/-- The text `suicide` scores exactly the suicidality weight 0.6. -/
theorem mh_score_suicide : compute_mental_health_risk "suicide".data = 3/5 := by
  rw [compute_mental_health_risk, keyword_score_eq]
  have h1 : categoryTriggers (lower "suicide".data) mhDepression = false := by decide
  have h2 : categoryTriggers (lower "suicide".data) mhAnxiety = false := by decide
  have h3 : categoryTriggers (lower "suicide".data) mhSuicidality = true := by decide
  have h4 : categoryTriggers (lower "suicide".data) mhSubstanceUse = false := by decide
  simp only [MH_KEYWORDS, List.filter_cons, h1, h2, h3, h4, if_true, if_false, List.filter_nil]
  norm_num [mhSuicidality]

/-- Classification of the score 0.6 itself: it reaches `high`. -/
theorem risk_level_three_fifths : risk_level (3/5) = "high" := by
  rw [risk_level]
  norm_num

/-- Classification of the score 0.7: `high`. -/
theorem risk_level_seven_tenths : risk_level (7/10) = "high" := by
  rw [risk_level]
  norm_num

/-- Every HIV score is one of the twelve values in `hivScoreValues`
(case analysis over the four category triggers). -/
theorem hiv_score_mem_values (t : List Char) : compute_hiv_risk t ∈ hivScoreValues := by
  rw [compute_hiv_risk, keyword_score_eq, hivScoreValues]
  cases h1 : categoryTriggers (lower t) hivUnprotectedSex <;>
  cases h2 : categoryTriggers (lower t) hivStiSymptoms <;>
  cases h3 : categoryTriggers (lower t) hivMultiplePartners <;>
  cases h4 : categoryTriggers (lower t) hivPartnerStatus <;>
  simp only [HIV_KEYWORDS, List.filter_cons, h1, h2, h3, h4, if_true, if_false,
    List.filter_nil, List.map_cons, List.map_nil] <;>
  norm_num [hivUnprotectedSex, hivStiSymptoms, hivMultiplePartners, hivPartnerStatus,
    List.mem_cons, min_def]

/-- Every mental-health score is one of the thirteen values in
`mhScoreValues` (case analysis over the four category triggers). -/
theorem mh_score_mem_values (t : List Char) : compute_mental_health_risk t ∈ mhScoreValues := by
  rw [compute_mental_health_risk, keyword_score_eq, mhScoreValues]
  cases h1 : categoryTriggers (lower t) mhDepression <;>
  cases h2 : categoryTriggers (lower t) mhAnxiety <;>
  cases h3 : categoryTriggers (lower t) mhSuicidality <;>
  cases h4 : categoryTriggers (lower t) mhSubstanceUse <;>
  simp only [MH_KEYWORDS, List.filter_cons, h1, h2, h3, h4, if_true, if_false,
    List.filter_nil, List.map_cons, List.map_nil] <;>
  norm_num [mhDepression, mhAnxiety, mhSuicidality, mhSubstanceUse,
    List.mem_cons, min_def]

/-- Every value in `hivScoreValues` is zero or at least 0.15. -/
theorem hivScoreValues_gap : ∀ q ∈ hivScoreValues, q = 0 ∨ 3/20 ≤ q := by
  intro q hq
  fin_cases hq <;> norm_num

/-- Every value in `mhScoreValues` is zero or at least 0.15. -/
theorem mhScoreValues_gap : ∀ q ∈ mhScoreValues, q = 0 ∨ 3/20 ≤ q := by
  intro q hq
  fin_cases hq <;> norm_num

/-! ## Claims -/

/-- C1 (counterexample): on the text `suicide`, exactly the
suicidality_or_self_harm category of the mental-health catalog
triggers and no other category does, yet the resulting mental-health
risk level is `high` — refuting the claim that a lone suicidality
trigger cannot reach `high`. -/
theorem claim_C1_counterexample :
    (∀ c ∈ MH_KEYWORDS,
        (categoryTriggers (lower "suicide".data) c = true
          ↔ c.name = "suicidality_or_self_harm"))
    ∧ risk_level (compute_mental_health_risk "suicide".data) = "high" := by
  refine ⟨suicide_only_suicidality, ?_⟩
  rw [mh_score_suicide]
  exact risk_level_three_fifths

/-- C1 (amended): for every text in which, of the mental-health
catalog, exactly the suicidality_or_self_harm category (weight 0.60)
triggers and no other category triggers, the mental-health score is
0.6 and the risk level IS `high`: the single 0.60 weight meets the
`high` threshold (score ≥ 0.60) on its own. -/
theorem claim_C1 (t : List Char)
    (h : ∀ c ∈ MH_KEYWORDS,
        (categoryTriggers (lower t) c = true ↔ c.name = "suicidality_or_self_harm")) :
    compute_mental_health_risk t = 3/5
      ∧ risk_level (compute_mental_health_risk t) = "high" := by
  have hd : categoryTriggers (lower t) mhDepression = false := by
    cases hb : categoryTriggers (lower t) mhDepression
    · rfl
    · exact absurd ((h mhDepression (by simp [MH_KEYWORDS])).1 hb) (by decide)
  have ha : categoryTriggers (lower t) mhAnxiety = false := by
    cases hb : categoryTriggers (lower t) mhAnxiety
    · rfl
    · exact absurd ((h mhAnxiety (by simp [MH_KEYWORDS])).1 hb) (by decide)
  have hu : categoryTriggers (lower t) mhSubstanceUse = false := by
    cases hb : categoryTriggers (lower t) mhSubstanceUse
    · rfl
    · exact absurd ((h mhSubstanceUse (by simp [MH_KEYWORDS])).1 hb) (by decide)
  have hs : categoryTriggers (lower t) mhSuicidality = true :=
    (h mhSuicidality (by simp [MH_KEYWORDS])).2 rfl
  have hscore : compute_mental_health_risk t = 3/5 := by
    rw [compute_mental_health_risk, keyword_score_eq]
    simp only [MH_KEYWORDS, List.filter_cons, hd, ha, hs, hu, if_true, if_false,
      List.filter_nil]
    norm_num [mhSuicidality]
  refine ⟨hscore, ?_⟩
  rw [hscore]
  exact risk_level_three_fifths

/-- C1 (witness): the amended theorem instantiated at the text
`suicide`. -/
theorem claim_C1_witness :
    (∀ c ∈ MH_KEYWORDS,
        (categoryTriggers (lower "suicide".data) c = true
          ↔ c.name = "suicidality_or_self_harm"))
    ∧ compute_mental_health_risk "suicide".data = 3/5
    ∧ risk_level (compute_mental_health_risk "suicide".data) = "high" :=
  ⟨suicide_only_suicidality,
    (claim_C1 _ suicide_only_suicidality).1,
    (claim_C1 _ suicide_only_suicidality).2⟩

/-- C2: for every text and every catalog with nonnegative weights, the
Scorer output equals the sum of the weights of the triggered
categories — a category is triggered iff at least one of its rules
matches, and contributes its weight exactly once however many rules
match — clamped at 1.0; consequently the output lies in [0, 1]. -/
theorem claim_C2 (t : List Char) (dict : List Category)
    (hw : ∀ c ∈ dict, 0 ≤ c.weight) :
    _keyword_score t dict
        = min (((dict.filter (categoryTriggers (lower t))).map Category.weight).sum) 1
      ∧ 0 ≤ _keyword_score t dict ∧ _keyword_score t dict ≤ 1 := by
  refine ⟨keyword_score_eq t dict, ?_, ?_⟩
  · rw [keyword_score_eq]
    refine le_min ?_ zero_le_one
    refine weight_sum_nonneg _ ?_
    intro c hc
    exact hw c (List.mem_of_mem_filter hc)
  · rw [keyword_score_eq]
    exact min_le_right _ _

/-- C2 (witness): the Scorer bound instantiated at the example text
and the HIV catalog. -/
theorem claim_C2_witness :
    (∀ c ∈ HIV_KEYWORDS, 0 ≤ c.weight)
    ∧ 0 ≤ _keyword_score c4text HIV_KEYWORDS
    ∧ _keyword_score c4text HIV_KEYWORDS ≤ 1 :=
  ⟨hiv_weights_nonneg,
    (claim_C2 c4text HIV_KEYWORDS hiv_weights_nonneg).2.1,
    (claim_C2 c4text HIV_KEYWORDS hiv_weights_nonneg).2.2⟩

/-- C3: the Level Classifier returns `low` iff score < 0.30,
`moderate` iff 0.30 ≤ score < 0.60 and `high` iff score ≥ 0.60; in
particular 0.29 maps to low, 0.30 to moderate, 0.59 to moderate and
0.60 to high.  Both domains are classified by this single function, so
the thresholds are the same for both. -/
theorem claim_C3 :
    (∀ s : ℚ,
        (risk_level s = "low" ↔ s < 3/10)
        ∧ (risk_level s = "moderate" ↔ 3/10 ≤ s ∧ s < 3/5)
        ∧ (risk_level s = "high" ↔ 3/5 ≤ s))
    ∧ risk_level (29/100) = "low"
    ∧ risk_level (3/10) = "moderate"
    ∧ risk_level (59/100) = "moderate"
    ∧ risk_level (3/5) = "high" := by
  constructor
  · intro s
    rw [risk_level]
    split_ifs with h1 h2
    · refine ⟨iff_of_true rfl h1, iff_of_false (by decide) ?_, iff_of_false (by decide) ?_⟩
      · rintro ⟨ha, -⟩
        linarith
      · intro hc
        linarith
    · exact ⟨iff_of_false (by decide) h1,
        iff_of_true rfl ⟨not_lt.1 h1, h2⟩,
        iff_of_false (by decide) (not_le.2 h2)⟩
    · exact ⟨iff_of_false (by decide) h1,
        iff_of_false (by decide) (fun hc => h2 hc.2),
        iff_of_true rfl (not_lt.1 h2)⟩
  · refine ⟨?_, ?_, ?_, ?_⟩ <;> (rw [risk_level]; norm_num)

/-- C4: on the user text of the end-to-end example, exactly the HIV
categories unprotected_sex (weight 0.45) and sti_symptoms (weight
0.25) trigger, the HIV score is 0.70, the level is `high`, and the HIV
recommendation is the high-urgency message. -/
theorem claim_C4 :
    ((HIV_KEYWORDS.filter (categoryTriggers (lower c4text))).map Category.name
        = ["unprotected_sex", "sti_symptoms"])
    ∧ hivUnprotectedSex.weight = 45/100
    ∧ hivStiSymptoms.weight = 25/100
    ∧ compute_hiv_risk c4text = 7/10
    ∧ risk_level (compute_hiv_risk c4text) = "high"
    ∧ generate_hiv_recommendation (compute_hiv_risk c4text)
        = "High HIV risk. Immediate clinical assessment advised. Evaluate for PEP, STI screening, pregnancy screening if applicable, and urgent HIV testing." := by
  refine ⟨by decide, by norm_num [hivUnprotectedSex], by norm_num [hivStiSymptoms],
    hiv_score_c4, ?_, ?_⟩
  · rw [hiv_score_c4]
    exact risk_level_seven_tenths
  · rw [hiv_score_c4]
    simp [generate_hiv_recommendation, risk_level_seven_tenths]

/-- C5: when zero categories of a catalog trigger on a text, the score
is exactly 0 and the level is `low` (the core computes a result for
every input; no error path exists in the embedding). -/
theorem claim_C5 (t : List Char) (dict : List Category)
    (h : ∀ c ∈ dict, categoryTriggers (lower t) c = false) :
    _keyword_score t dict = 0 ∧ risk_level (_keyword_score t dict) = "low" := by
  have hfil : dict.filter (categoryTriggers (lower t)) = [] := by
    rw [List.filter_eq_nil_iff]
    intro c hc
    simp [h c hc]
  have h0 : _keyword_score t dict = 0 := by
    rw [keyword_score_eq, hfil]
    norm_num
  refine ⟨h0, ?_⟩
  rw [h0, risk_level]
  norm_num

/-- C5 (witness): a conversation with no recognizable user line
extracts to the empty string, which triggers no mental-health category
and scores 0.0 / `low`. -/
theorem claim_C5_witness :
    extract_user_text noUserConv = []
    ∧ (∀ c ∈ MH_KEYWORDS,
        categoryTriggers (lower (extract_user_text noUserConv)) c = false)
    ∧ _keyword_score (extract_user_text noUserConv) MH_KEYWORDS = 0
    ∧ risk_level (_keyword_score (extract_user_text noUserConv) MH_KEYWORDS) = "low" := by
  have h : ∀ c ∈ MH_KEYWORDS,
      categoryTriggers (lower (extract_user_text noUserConv)) c = false := by decide
  exact ⟨by decide, h, (claim_C5 _ _ h).1, (claim_C5 _ _ h).2⟩

/-- C6: a line is dropped iff its stripped form does not contain the
user marker `User:`; kept lines contribute the stripped remainder
after the marker, space-joined in original line order; the example
line `[12:01] User: I feel sad` yields `I feel sad`, and a line with
no marker contributes nothing. -/
theorem claim_C6 :
    (∀ l : List Char, containsSub "User:".data (strip l) = false → processLine l = none)
    ∧ (∀ l : List Char, containsSub "User:".data (strip l) = true → processLine l ≠ none)
    ∧ (∀ conv : List Char,
        extract_user_text conv = joinSpace ((splitlines conv).filterMap processLine))
    ∧ extract_user_text "[12:01] User: I feel sad".data = "I feel sad".data
    ∧ processLine "[12:01] Nurse: hello".data = none := by
  refine ⟨?_, ?_, fun conv => rfl, by decide, by decide⟩
  · intro l h
    have h2 : containsSub "] User:".data (strip l) = false := by
      cases hc : containsSub "] User:".data (strip l)
      · rfl
      · have he : "] User:".data = "] ".data ++ "User:".data := by decide
        have := containsSub_append_left "] ".data "User:".data (strip l) (he ▸ hc)
        simp [this] at h
    simp [processLine, h, h2]
  · intro l h
    simp only [processLine]
    split
    · simp
    · simp [h]

/-- C6 (witness): the line-keeping rule instantiated at a marker-free
line and at the example user line. -/
theorem claim_C6_witness :
    (containsSub "User:".data (strip "hello there".data) = false
      ∧ processLine "hello there".data = none)
    ∧ (containsSub "User:".data (strip "[12:01] User: I feel sad".data) = true
      ∧ processLine "[12:01] User: I feel sad".data ≠ none) :=
  ⟨⟨by decide, claim_C6.1 _ (by decide)⟩,
    ⟨by decide, claim_C6.2.1 _ (by decide)⟩⟩

/-- C7: the Scorer is monotonic — over any catalog with nonnegative
weights, if every category triggered by the first text is also
triggered by the second, the first score is at most the second. -/
theorem claim_C7 (t₁ t₂ : List Char) (dict : List Category)
    (hw : ∀ c ∈ dict, 0 ≤ c.weight)
    (hsub : ∀ c ∈ dict,
        categoryTriggers (lower t₁) c = true → categoryTriggers (lower t₂) c = true) :
    _keyword_score t₁ dict ≤ _keyword_score t₂ dict := by
  rw [keyword_score_eq, keyword_score_eq]
  exact min_le_min (filter_sum_mono dict _ _ hw hsub) le_rfl

/-- C7 (witness): monotonicity instantiated with the empty text (no
triggers) below the text `suicide` on the mental-health catalog. -/
theorem claim_C7_witness :
    (∀ c ∈ MH_KEYWORDS, 0 ≤ c.weight)
    ∧ (∀ c ∈ MH_KEYWORDS,
        categoryTriggers (lower "".data) c = true
          → categoryTriggers (lower "suicide".data) c = true)
    ∧ _keyword_score "".data MH_KEYWORDS ≤ _keyword_score "suicide".data MH_KEYWORDS := by
  have hsub : ∀ c ∈ MH_KEYWORDS,
      categoryTriggers (lower "".data) c = true
        → categoryTriggers (lower "suicide".data) c = true := by decide
  exact ⟨mh_weights_nonneg, hsub, claim_C7 _ _ _ mh_weights_nonneg hsub⟩

/-- C8: the Analyzer is deterministic — two runs on identical
(conversation_id, conversation text) inputs produce identical
`ConversationRiskResult` records; the embedding is a pure function of
its two arguments, mirroring the absence of hidden state or randomness
in the source. -/
theorem claim_C8 (cid₁ cid₂ : ℤ) (t₁ t₂ : List Char)
    (h1 : cid₁ = cid₂) (h2 : t₁ = t₂) :
    analyse_conversation cid₁ t₁ = analyse_conversation cid₂ t₂ := by
  rw [h1, h2]

/-- C8 (witness): determinism instantiated at a sample conversation. -/
theorem claim_C8_witness :
    (0 : ℤ) = 0 ∧ sampleConv = sampleConv
    ∧ analyse_conversation 0 sampleConv = analyse_conversation 0 sampleConv :=
  ⟨rfl, rfl, claim_C8 0 0 sampleConv sampleConv rfl rfl⟩

/-- C9: the result record stores the two domain scores rounded to 2
decimal places, while both level fields and both recommendations are
computed from the unrounded scores. -/
theorem claim_C9 (cid : ℤ) (conv : List Char) :
    analyse_conversation cid conv =
      { conversation_id := cid
        hiv_risk_score := round2 (compute_hiv_risk (extract_user_text conv))
        hiv_risk_level := risk_level (compute_hiv_risk (extract_user_text conv))
        mental_health_risk_score :=
          round2 (compute_mental_health_risk (extract_user_text conv))
        mental_health_risk_level :=
          risk_level (compute_mental_health_risk (extract_user_text conv))
        hiv_recommendation :=
          generate_hiv_recommendation (compute_hiv_risk (extract_user_text conv))
        mental_health_recommendation :=
          generate_mental_health_recommendation
            (compute_mental_health_risk (extract_user_text conv)) } := rfl

/-- C10: each domain score equals min(1, sum of the weights of the
triggered categories), so only finitely many score values are
reachable per domain (they all lie in the explicit value lists), and
in particular no score of either domain lies strictly between 0 and
0.15. -/
theorem claim_C10 (t : List Char) :
    (compute_hiv_risk t
        = min (((HIV_KEYWORDS.filter (categoryTriggers (lower t))).map Category.weight).sum) 1
      ∧ compute_hiv_risk t ∈ hivScoreValues
      ∧ (compute_hiv_risk t = 0 ∨ 3/20 ≤ compute_hiv_risk t))
    ∧ (compute_mental_health_risk t
        = min (((MH_KEYWORDS.filter (categoryTriggers (lower t))).map Category.weight).sum) 1
      ∧ compute_mental_health_risk t ∈ mhScoreValues
      ∧ (compute_mental_health_risk t = 0 ∨ 3/20 ≤ compute_mental_health_risk t)) :=
  ⟨⟨keyword_score_eq t HIV_KEYWORDS, hiv_score_mem_values t,
      hivScoreValues_gap _ (hiv_score_mem_values t)⟩,
    ⟨keyword_score_eq t MH_KEYWORDS, mh_score_mem_values t,
      mhScoreValues_gap _ (mh_score_mem_values t)⟩⟩

end RiskAnalysis
